import Mathlib

/-!
Verification development for the sea-ice visualization dashboard
(bokeh-app/monthly/main.py).  The data-retrieval-and-aggregation core is
shallowly embedded: the seasonal aggregator (groupby year over a month
filter), the ensemble statistics section (numpy stacking with axis-0
min/max/mean), the memoized fetcher (functools.lru_cache), the update
cycle of SeaIceAnalysis.update_plot, and the coordinate assignments it
performs on fetched data arrays.  Values are modelled as rationals,
timestamps as (year, month) pairs.
-/

namespace SeaIce

/-- One observation of a raw monthly series: the calendar year and month of
its timestamp and the data value (xarray time coordinate plus value). -/
structure Obs where
  year : Int
  month : Nat
  value : Rat
deriving DecidableEq, Repr

/-- The season_to_months table of update_plot (main.py lines 223-228). -/
def seasonToMonths (s : String) : List Nat :=
  if s = "DJF" then [12, 1, 2]
  else if s = "MAM" then [3, 4, 5]
  else if s = "JJA" then [6, 7, 8]
  else if s = "SON" then [9, 10, 11]
  else []

/-- Insert an integer into a strictly sorted list, keeping it strictly
sorted and duplicate-free (the ordered distinct group labels that
xarray groupby produces). -/
def insertSorted (x : Int) : List Int → List Int
  | [] => [x]
  | y :: ys =>
    if x < y then x :: y :: ys
    else if x = y then y :: ys
    else y :: insertSorted x ys

/-- The sorted duplicate-free list of the elements of l: the year axis
xarray groupby('year') assigns to the grouped output. -/
def sortedDedup (l : List Int) : List Int :=
  l.foldr insertSorted []

/-- Arithmetic mean of a list of rationals (mean over one groupby group). -/
def listMean (l : List Rat) : Rat :=
  l.sum / l.length

/-- The observations whose calendar month lies in the selected months:
da.sel(time=da.time.dt.month.isin(months)) of main.py line 252. -/
def qualifying (r : List Obs) (months : List Nat) : List Obs :=
  r.filter (fun o => decide (o.month ∈ months))

/-- The seasonal aggregation of main.py line 252:
da.sel(time=month isin months).groupby('year').mean(), returning the
ascending year axis paired with the mean of each year group. -/
def aggregate (r : List Obs) (months : List Nat) : List (Int × Rat) :=
  (sortedDedup ((qualifying r months).map Obs.year)).map
    (fun y => (y, listMean (((qualifying r months).filter
      (fun o => decide (o.year = y))).map Obs.value)))

theorem mem_insertSorted (x a : Int) (l : List Int) :
    a ∈ insertSorted x l ↔ a = x ∨ a ∈ l := by
  induction l with
  | nil => simp [insertSorted]
  | cons y ys ih =>
    by_cases h1 : x < y
    · simp [insertSorted, h1]
    · by_cases h2 : x = y
      · subst h2
        rw [insertSorted, if_neg h1, if_pos rfl]
        simp only [List.mem_cons]
        tauto
      · simp only [insertSorted, if_neg h1, if_neg h2, List.mem_cons, ih]
        tauto

theorem sorted_insertSorted (x : Int) (l : List Int)
    (h : List.Sorted (· < ·) l) :
    List.Sorted (· < ·) (insertSorted x l) := by
  induction l with
  | nil => simp [insertSorted]
  | cons y ys ih =>
    rw [List.sorted_cons] at h
    by_cases h1 : x < y
    · rw [insertSorted, if_pos h1, List.sorted_cons]
      constructor
      · intro b hb
        rcases List.mem_cons.mp hb with rfl | hb
        · exact h1
        · exact lt_trans h1 (h.1 b hb)
      · rw [List.sorted_cons]; exact h
    · by_cases h2 : x = y
      · rw [insertSorted, if_neg h1, if_pos h2, List.sorted_cons]
        exact h
      · have hyx : y < x := by omega
        rw [insertSorted, if_neg h1, if_neg h2, List.sorted_cons]
        constructor
        · intro b hb
          rcases (mem_insertSorted x b ys).mp hb with rfl | hb
          · exact hyx
          · exact h.1 b hb
        · exact ih h.2

theorem sorted_sortedDedup (l : List Int) :
    List.Sorted (· < ·) (sortedDedup l) := by
  induction l with
  | nil => simp [sortedDedup]
  | cons x xs ih => exact sorted_insertSorted x _ ih

theorem mem_sortedDedup (l : List Int) (a : Int) :
    a ∈ sortedDedup l ↔ a ∈ l := by
  induction l with
  | nil => simp [sortedDedup]
  | cons x xs ih =>
    simp only [sortedDedup, List.foldr_cons, mem_insertSorted, List.mem_cons]
    rw [show List.foldr insertSorted [] xs = sortedDedup xs from rfl] at *
    rw [ih]

theorem aggregate_map_fst (r : List Obs) (months : List Nat) :
    (aggregate r months).map Prod.fst
      = sortedDedup ((qualifying r months).map Obs.year) := by
  unfold aggregate
  rw [List.map_map]
  exact List.map_id' _

theorem mem_aggregate_years (r : List Obs) (months : List Nat) (y : Int) :
    y ∈ (aggregate r months).map Prod.fst ↔
      ∃ o ∈ r, o.month ∈ months ∧ o.year = y := by
  rw [aggregate_map_fst, mem_sortedDedup]
  simp only [List.mem_map, qualifying, List.mem_filter, decide_eq_true_eq]
  tauto

theorem qualifying_filter_year (r : List Obs) (months : List Nat) (y : Int) :
    (qualifying r months).filter (fun o => decide (o.year = y))
      = r.filter (fun o => decide (o.month ∈ months ∧ o.year = y)) := by
  unfold qualifying
  rw [List.filter_filter]
  apply List.filter_congr
  intro o _
  simp [Bool.and_comm]

/-- Claim C6: for every raw series and month set, the year axis of the
seasonal aggregation is strictly ascending with no duplicates, contains
exactly the years with at least one observation whose month is selected
(years with no qualifying observation are omitted), and the value emitted
for a year is the arithmetic mean of that year's qualifying observations. -/
theorem aggregate_years_sorted_mean (r : List Obs) (months : List Nat) :
    List.Sorted (· < ·) ((aggregate r months).map Prod.fst)
    ∧ ((aggregate r months).map Prod.fst).Nodup
    ∧ (∀ y : Int, y ∈ (aggregate r months).map Prod.fst ↔
        ∃ o ∈ r, o.month ∈ months ∧ o.year = y)
    ∧ ∀ p ∈ aggregate r months,
        p.2 = listMean ((r.filter (fun o =>
          decide (o.month ∈ months ∧ o.year = p.1))).map Obs.value) := by
  have hsorted : List.Sorted (· < ·) ((aggregate r months).map Prod.fst) := by
    rw [aggregate_map_fst]; exact sorted_sortedDedup _
  refine ⟨hsorted, hsorted.imp (fun h => ne_of_lt h), ?_, ?_⟩
  · exact mem_aggregate_years r months
  · intro p hp
    simp only [aggregate, List.mem_map] at hp
    obtain ⟨y, _, rfl⟩ := hp
    rw [qualifying_filter_year]

/-- Monthly raw series of the DJF example scenario of the spec: timestamps
2015-12, 2016-01, 2016-02, 2016-12, 2017-01, 2017-02. -/
def djfExample : List Obs :=
  [⟨2015, 12, 1⟩, ⟨2016, 1, 2⟩, ⟨2016, 2, 3⟩,
   ⟨2016, 12, 4⟩, ⟨2017, 1, 5⟩, ⟨2017, 2, 6⟩]

/-- Claim C1 (counterexample): aggregating the example series over DJF
yields the year axis [2015, 2016, 2017], not [2015, 2016] as the claim
states: January and February observations are grouped under their own
calendar year, not under the year of the preceding December. -/
theorem djf_example_years_cex :
    (aggregate djfExample (seasonToMonths "DJF")).map Prod.fst
      = [2015, 2016, 2017]
    ∧ (aggregate djfExample (seasonToMonths "DJF")).map Prod.fst
      ≠ [2015, 2016] := by
  decide

/-- Claim C1 (amended): the aggregator applies no DJF year-boundary
convention at all: every observation, December included, is grouped under
its own calendar year (a year appears on the DJF axis exactly when it has
a December, January or February observation of that same calendar year),
and the example series yields the year axis [2015, 2016, 2017]. -/
theorem djf_groups_by_calendar_year :
    (∀ (r : List Obs) (y : Int),
      y ∈ (aggregate r (seasonToMonths "DJF")).map Prod.fst ↔
        ∃ o ∈ r, (o.month = 12 ∨ o.month = 1 ∨ o.month = 2) ∧ o.year = y)
    ∧ (aggregate djfExample (seasonToMonths "DJF")).map Prod.fst
      = [2015, 2016, 2017] := by
  constructor
  · intro r y
    rw [mem_aggregate_years]
    have hdjf : seasonToMonths "DJF" = [12, 1, 2] := rfl
    rw [hdjf]
    simp only [List.mem_cons, List.not_mem_nil, or_false]
  · decide

/-- Minimum of a list of rationals (one column of np.min along axis 0). -/
def listMin : List Rat → Rat
  | [] => 0
  | x :: t => t.foldl min x

/-- Maximum of a list of rationals (one column of np.max along axis 0). -/
def listMax : List Rat → Rat
  | [] => 0
  | x :: t => t.foldl max x

/-- Reduce a rectangular row-major array along axis 0, one result per
column j < n: the numpy axis-0 reductions of main.py lines 357-359. -/
def axisReduce (f : List Rat → Rat) (rows : List (List Rat)) (n : Nat) :
    List Rat :=
  (List.range n).map (fun j => f (rows.map (fun row => row.getD j 0)))

/-- The statistics the ensemble section of update_plot computes: the year
axis taken from the last aggregated member (main.py line 362) and the
axis-0 minimum, maximum and mean of the stacked member values (lines
354-359).  The code computes nothing else there - in particular no
standard deviation. -/
structure EnsembleOut where
  years : List Int
  minValues : List Rat
  maxValues : List Rat
  meanValues : List Rat
deriving DecidableEq, Repr

/-- The ensemble statistics section of update_plot (main.py lines
350-364): a nonempty list of per-member aggregated series (the code
guards len(ensemble_data) > 0) is stacked with np.array - which requires
all value sequences to have the same length, raising ValueError on a
ragged stack - and reduced along axis 0 with np.min, np.max and np.mean;
the year axis is read off the last member processed. -/
def ensembleStats (members : List (List (Int × Rat))) : Option EnsembleOut :=
  match members with
  | [] => none
  | m :: rest =>
    if rest.all (fun x => x.length == m.length) then
      some
        { years := ((m :: rest).getLastD []).map Prod.fst,
          minValues :=
            axisReduce listMin ((m :: rest).map (List.map Prod.snd)) m.length,
          maxValues :=
            axisReduce listMax ((m :: rest).map (List.map Prod.snd)) m.length,
          meanValues :=
            axisReduce listMean ((m :: rest).map (List.map Prod.snd)) m.length }
    else none

theorem axisReduce_length (f : List Rat → Rat) (rows : List (List Rat))
    (n : Nat) : (axisReduce f rows n).length = n := by
  simp [axisReduce]

theorem axisReduce_getD (f : List Rat → Rat) (rows : List (List Rat))
    (n j : Nat) (h : j < n) :
    (axisReduce f rows n).getD j 0
      = f (rows.map (fun row => row.getD j 0)) := by
  simp [axisReduce, List.getD_eq_getElem?_getD, List.getElem?_map,
    List.getElem?_range h]

theorem axisReduce_single (f : List Rat → Rat) (hf : ∀ x : Rat, f [x] = x)
    (v : List Rat) : axisReduce f [v] v.length = v := by
  apply List.ext_getElem
  · simp [axisReduce]
  · intro i h1 h2
    have hi : i < v.length := h2
    simp [axisReduce, List.getD_eq_getElem?_getD, List.getElem?_eq_getElem hi,
      hf]

/-- Aggregated member series with year axis [2015, 2016]. -/
def exMemberA : List (Int × Rat) := [(2015, 1), (2016, 2)]

/-- Aggregated member series with year axis [2016, 2017]. -/
def exMemberB : List (Int × Rat) := [(2016, 10), (2017, 20)]

/-- Aggregated member series with the same year axis as exMemberA. -/
def exMemberC : List (Int × Rat) := [(2015, 3), (2016, 5)]

/-- Claim C3 (counterexample): two members whose year axes are
[2015, 2016] and [2016, 2017] have intersection [2016], but the code
performs no alignment: it stacks the equal-length value arrays and
labels the result with the year axis of the last member, [2016, 2017].
The year 2017 appears in the output although the first member has no
value for it, so the output axis is not the intersection. -/
theorem ensemble_no_intersection_cex :
    Option.map EnsembleOut.years (ensembleStats [exMemberA, exMemberB])
      = some [2016, 2017]
    ∧ Option.map EnsembleOut.years (ensembleStats [exMemberA, exMemberB])
      ≠ some [2016] := by
  decide

/-- Claim C3 (amended): the ensemble engine performs no year-axis
alignment and computes no standard deviation.  Given a nonempty member
list whose value sequences all share the first member's length, it
returns exactly three sequences - the columnwise minimum, maximum and
arithmetic mean across members - each of that common length, labelled
with the year axis of the last member; differing lengths yield no
statistics at all (numpy refuses the ragged stack). -/
theorem ensemble_equal_length_stats (m : List (Int × Rat))
    (rest : List (List (Int × Rat)))
    (hlen : ∀ x ∈ rest, x.length = m.length) :
    ∃ out, ensembleStats (m :: rest) = some out
      ∧ out.years = ((m :: rest).getLastD []).map Prod.fst
      ∧ out.minValues.length = m.length
      ∧ out.maxValues.length = m.length
      ∧ out.meanValues.length = m.length
      ∧ ∀ j, j < m.length →
          out.minValues.getD j 0
            = listMin (((m :: rest).map (List.map Prod.snd)).map
                (fun v => v.getD j 0))
          ∧ out.maxValues.getD j 0
            = listMax (((m :: rest).map (List.map Prod.snd)).map
                (fun v => v.getD j 0))
          ∧ out.meanValues.getD j 0
            = listMean (((m :: rest).map (List.map Prod.snd)).map
                (fun v => v.getD j 0)) := by
  have hall : rest.all (fun x => x.length == m.length) = true := by
    rw [List.all_eq_true]
    intro x hx
    simpa using hlen x hx
  refine ⟨⟨((m :: rest).getLastD []).map Prod.fst,
      axisReduce listMin ((m :: rest).map (List.map Prod.snd)) m.length,
      axisReduce listMax ((m :: rest).map (List.map Prod.snd)) m.length,
      axisReduce listMean ((m :: rest).map (List.map Prod.snd)) m.length⟩,
    ?_, rfl, axisReduce_length _ _ _, axisReduce_length _ _ _,
    axisReduce_length _ _ _, ?_⟩
  · simp only [ensembleStats, hall, if_true]
  · intro j hj
    exact ⟨axisReduce_getD _ _ _ _ hj, axisReduce_getD _ _ _ _ hj,
      axisReduce_getD _ _ _ _ hj⟩

/-- Claim C3 (witness): the amended theorem applied to the two concrete
equal-length members exMemberA and exMemberC. -/
theorem ensemble_equal_length_stats_witness :
    (ensembleStats [exMemberA, exMemberC]).isSome = true := by
  obtain ⟨out, h, -⟩ :=
    ensemble_equal_length_stats exMemberA [exMemberC] (by decide)
  rw [h]
  rfl

/-- Single-member ensemble example with values [1, 2]. -/
def exSingle : List (Int × Rat) := [(2015, 1), (2016, 2)]

/-- The statistics the code computes for exSingle as the only member. -/
def exSingleOut : EnsembleOut := ⟨[2015, 2016], [1, 2], [1, 2], [1, 2]⟩

theorem ensembleStats_single (m : List (Int × Rat)) :
    ensembleStats [m]
      = some ⟨m.map Prod.fst, m.map Prod.snd, m.map Prod.snd,
              m.map Prod.snd⟩ := by
  have hn : m.length = (m.map Prod.snd).length := (List.length_map _ _).symm
  have hmin : axisReduce listMin [m.map Prod.snd] m.length = m.map Prod.snd := by
    rw [hn]
    exact axisReduce_single listMin (fun x => rfl) _
  have hmax : axisReduce listMax [m.map Prod.snd] m.length = m.map Prod.snd := by
    rw [hn]
    exact axisReduce_single listMax (fun x => rfl) _
  have hmean : axisReduce listMean [m.map Prod.snd] m.length = m.map Prod.snd := by
    rw [hn]
    refine axisReduce_single listMean (fun x => ?_) _
    simp [listMean]
  simp [ensembleStats, hmin, hmax, hmean]

/-- Claim C7 (counterexample): for the single member with values [1, 2],
the ensemble section computes exactly three sequences - min, max and
mean, each equal to [1, 2] - and no all-zero sequence is among them:
the code computes no standard deviation, so no output of the engine
realizes the clause std = 0 of the claim. -/
theorem no_std_component_cex :
    ensembleStats [exSingle] = some exSingleOut
    ∧ [(0 : Rat), 0] ∉
        [exSingleOut.minValues, exSingleOut.maxValues,
         exSingleOut.meanValues] := by
  rw [ensembleStats_single]
  decide

/-- Claim C7 (amended): given exactly one member series, every sequence
the ensemble section computes (min, max and mean) equals the member's
own value sequence - so min = max = mean = value for every year - and
the year axis is the member's own; no standard deviation is computed. -/
theorem single_member_min_max_mean (m : List (Int × Rat)) :
    ∃ out, ensembleStats [m] = some out
      ∧ out.minValues = m.map Prod.snd
      ∧ out.maxValues = m.map Prod.snd
      ∧ out.meanValues = m.map Prod.snd
      ∧ out.years = m.map Prod.fst :=
  ⟨⟨m.map Prod.fst, m.map Prod.snd, m.map Prod.snd, m.map Prod.snd⟩,
    ensembleStats_single m, rfl, rfl, rfl, rfl⟩

/-- The cache key of the memoized fetcher: the full argument tuple of
download_and_extract_data, on which functools.lru_cache keys. -/
structure SKey where
  varType : String
  model : String
  tempReso : String
  scenario : String
  member : String
deriving DecidableEq, Repr

/-- One remote variable of a dataset: its value array and its attribute
table (the xarray DataArray attrs dictionary). -/
structure RemoteVar where
  values : List Rat
  attrs : List (String × String)
deriving DecidableEq, Repr

/-- A remote dataset: its named variables and its optional global title
attribute (ds.title raises when the attribute is absent). -/
structure RemoteDataset where
  vars : List (String × RemoteVar)
  title : Option String
deriving DecidableEq, Repr

/-- The record a successful fetch returns (main.py line 56): the data
array together with the title, long_name and units attributes. -/
structure ExtractResult where
  da : RemoteVar
  title : String
  longName : String
  units : String
deriving DecidableEq, Repr

/-- The remote address built by download_and_extract_data (main.py lines
44-48); model[:-8] drops the trailing "_sea_ice". -/
def buildUrl (varType model tempReso scenario member : String) : String :=
  "https://thredds.met.no/thredds/dodsC/metusers/steingod/deside/climmodseaice"
    ++ "/" ++ varType ++ "/" ++ model ++ "/" ++ tempReso ++ "/" ++ scenario
    ++ "/" ++ member ++ "/" ++ varType ++ "_SImon_" ++ model.dropRight 8
    ++ "_" ++ scenario ++ "_" ++ member ++ "_2015_2100.nc"

/-- The body of download_and_extract_data (main.py lines 50-59): open the
dataset at the built address, extract the named variable, the global
title and the long_name and units attributes; every failure along the
way (unreachable resource, missing variable, missing attribute) is
caught by the bare except and None is returned instead.  env maps an
address to the dataset it serves, none when unreachable. -/
def download_and_extract_data (env : String → Option RemoteDataset)
    (k : SKey) : Option ExtractResult :=
  match env (buildUrl k.varType k.model k.tempReso k.scenario k.member) with
  | none => none
  | some ds =>
    match ds.vars.lookup k.varType with
    | none => none
    | some da =>
      match ds.title with
      | none => none
      | some t =>
        match da.attrs.lookup "long_name" with
        | none => none
        | some ln =>
          match da.attrs.lookup "units" with
          | none => none
          | some u => some ⟨da, t, ln, u⟩

/-- Outcome of one call through the memoizing cache: the value returned,
the cache afterwards, and how many times the underlying fetch body ran
(0 on a hit, 1 on a miss). -/
structure FetchOutcome where
  result : Option ExtractResult
  cache : List (SKey × Option ExtractResult)
  calls : Nat
deriving Repr

/-- One call through lru_cache(maxsize=cap) (main.py line 42).  The cache
stores whatever the body returned - the successful record or None - with
the most recently used entry at the head.  A hit returns the stored
value with no fetch and moves the entry to the front; a miss runs the
body once, stores its result at the front and truncates to cap entries,
dropping the least recently used (last) entry when full. -/
def getOrFetch (fetch : SKey → Option ExtractResult) (cap : Nat)
    (st : List (SKey × Option ExtractResult)) (k : SKey) : FetchOutcome :=
  match st.lookup k with
  | some v => ⟨v, (k, v) :: st.filter (fun e => e.1 != k), 0⟩
  | none => ⟨fetch k, ((k, fetch k) :: st).take cap, 1⟩

/-- Claim C10: the fetch is all-or-nothing and never propagates a
failure: for every environment and key it either returns none (some step
of the extraction failed) or returns the complete record of the data
array with the title, long_name and units exactly as the served dataset
holds them. -/
theorem fetch_all_or_nothing (env : String → Option RemoteDataset)
    (k : SKey) :
    download_and_extract_data env k = none
    ∨ ∃ ds da t ln u,
        env (buildUrl k.varType k.model k.tempReso k.scenario k.member)
          = some ds
        ∧ ds.vars.lookup k.varType = some da
        ∧ ds.title = some t
        ∧ da.attrs.lookup "long_name" = some ln
        ∧ da.attrs.lookup "units" = some u
        ∧ download_and_extract_data env k = some ⟨da, t, ln, u⟩ := by
  cases henv : env (buildUrl k.varType k.model k.tempReso k.scenario k.member) with
  | none => left; simp [download_and_extract_data, henv]
  | some ds =>
    cases hvar : ds.vars.lookup k.varType with
    | none => left; simp [download_and_extract_data, henv, hvar]
    | some da =>
      cases ht : ds.title with
      | none => left; simp [download_and_extract_data, henv, hvar, ht]
      | some t =>
        cases hln : da.attrs.lookup "long_name" with
        | none => left; simp [download_and_extract_data, henv, hvar, ht, hln]
        | some ln =>
          cases hu : da.attrs.lookup "units" with
          | none =>
            left
            simp [download_and_extract_data, henv, hvar, ht, hln, hu]
          | some u =>
            right
            refine ⟨ds, da, t, ln, u, rfl, hvar, ht, hln, hu, ?_⟩
            simp [download_and_extract_data, henv, hvar, ht, hln, hu]

/-- Claim C5: a key absent from the cache is fetched exactly once: the
first call runs the body, the immediately following call with the same
key is a hit that returns the stored result with zero invocations.  The
cache is bounded by cap, and when it is already full the new entry is
inserted in front while the least recently used entry - the last - is
evicted. -/
theorem cache_hit_and_lru_eviction (fetch : SKey → Option ExtractResult)
    (cap : Nat) (st : List (SKey × Option ExtractResult)) (k : SKey)
    (hmiss : st.lookup k = none) (hcap : 0 < cap) :
    (getOrFetch fetch cap st k).calls = 1
    ∧ (getOrFetch fetch cap (getOrFetch fetch cap st k).cache k).calls = 0
    ∧ (getOrFetch fetch cap (getOrFetch fetch cap st k).cache k).result
        = fetch k
    ∧ (st.length = cap →
        (getOrFetch fetch cap st k).cache = (k, fetch k) :: st.dropLast
        ∧ (getOrFetch fetch cap st k).cache.length = cap) := by
  obtain ⟨n, rfl⟩ : ∃ n, cap = n + 1 :=
    ⟨cap - 1, by omega⟩
  have h1 : getOrFetch fetch (n + 1) st k
      = ⟨fetch k, (k, fetch k) :: st.take n, 1⟩ := by
    rw [getOrFetch, hmiss]
    simp
  have h2 : ((k, fetch k) :: st.take n).lookup k = some (fetch k) := by
    simp [List.lookup]
  refine ⟨by rw [h1], ?_, ?_, ?_⟩
  · rw [h1]
    show (getOrFetch fetch (n + 1) ((k, fetch k) :: st.take n) k).calls = 0
    rw [getOrFetch, h2]
  · rw [h1]
    show (getOrFetch fetch (n + 1) ((k, fetch k) :: st.take n) k).result
        = fetch k
    rw [getOrFetch, h2]
  · intro hfull
    have hdl : st.take n = st.dropLast := by
      rw [List.dropLast_eq_take, hfull]
      simp
    constructor
    · rw [h1, hdl]
    · rw [h1]
      simp only [List.length_cons, List.length_take]
      omega

/-- Concrete series keys and a concrete successful record used by the
cache witnesses and counterexamples. -/
def exKey : SKey :=
  ⟨"siarean", "NorESM2-LM_sea_ice", "Monthly", "ssp126", "r1i1p1f1"⟩

/-- A second concrete key, differing in the ensemble member. -/
def exKeyB : SKey :=
  ⟨"siarean", "NorESM2-LM_sea_ice", "Monthly", "ssp126", "r2i1p1f1"⟩

/-- A third concrete key, differing in the scenario. -/
def exKeyC : SKey :=
  ⟨"siarean", "NorESM2-LM_sea_ice", "Monthly", "ssp245", "r1i1p1f1"⟩

/-- A concrete successful fetch record. -/
def exRecord : ExtractResult :=
  ⟨⟨[1, 2], [("long_name", "Total area of sea ice"), ("units", "1e6 km2")]⟩,
   "Sea ice index", "Total area of sea ice", "1e6 km2"⟩

/-- A fetch body that always succeeds with exRecord. -/
def okFetch : SKey → Option ExtractResult := fun _ => some exRecord

/-- A fetch body that always fails (returns None). -/
def failFetch : SKey → Option ExtractResult := fun _ => none

/-- A concrete full cache of two entries, most recently used first. -/
def wSt : List (SKey × Option ExtractResult) :=
  [(exKeyB, some exRecord), (exKeyC, some exRecord)]

/-- Claim C5 (witness): the theorem applied to a concrete full cache of
capacity 2 and a fresh key. -/
theorem cache_hit_and_lru_eviction_witness :
    (getOrFetch okFetch 2 wSt exKey).calls = 1
    ∧ (getOrFetch okFetch 2 (getOrFetch okFetch 2 wSt exKey).cache
        exKey).calls = 0
    ∧ (getOrFetch okFetch 2 (getOrFetch okFetch 2 wSt exKey).cache
        exKey).result = okFetch exKey
    ∧ (wSt.length = 2 →
        (getOrFetch okFetch 2 wSt exKey).cache
          = (exKey, okFetch exKey) :: wSt.dropLast
        ∧ (getOrFetch okFetch 2 wSt exKey).cache.length = 2) :=
  cache_hit_and_lru_eviction okFetch 2 wSt exKey (by decide) (by decide)

/-- Claim C2 (counterexample): with a fetch body that fails, the first
cached call runs the body once and stores the None result; the second
call with the same key is then a cache hit that runs the body zero
times - the failure is cached and not retried, contrary to the claim. -/
theorem failure_cached_cex :
    (getOrFetch failFetch 128 [] exKey).calls = 1
    ∧ (getOrFetch failFetch 128 [] exKey).cache.lookup exKey = some none
    ∧ (getOrFetch failFetch 128
        (getOrFetch failFetch 128 [] exKey).cache exKey).calls = 0 := by
  decide

/-- Claim C2 (amended): lru_cache memoizes whatever the body returns, so
a failed fetch (None) is stored like a success: after a first failing
call on a fresh key the None result sits in the cache, and a second call
with the same key is a hit returning None without invoking the
underlying fetcher again - the failure is not retried while the entry
remains cached. -/
theorem failed_fetch_cached (fetch : SKey → Option ExtractResult)
    (cap : Nat) (st : List (SKey × Option ExtractResult)) (k : SKey)
    (hmiss : st.lookup k = none) (hcap : 0 < cap)
    (hfail : fetch k = none) :
    (getOrFetch fetch cap st k).result = none
    ∧ (getOrFetch fetch cap st k).calls = 1
    ∧ (getOrFetch fetch cap st k).cache.lookup k = some none
    ∧ (getOrFetch fetch cap (getOrFetch fetch cap st k).cache k).result
        = none
    ∧ (getOrFetch fetch cap (getOrFetch fetch cap st k).cache k).calls
        = 0 := by
  obtain ⟨n, rfl⟩ : ∃ n, cap = n + 1 := ⟨cap - 1, by omega⟩
  have h1 : getOrFetch fetch (n + 1) st k
      = ⟨fetch k, (k, fetch k) :: st.take n, 1⟩ := by
    rw [getOrFetch, hmiss]
    simp
  have h2 : ((k, fetch k) :: st.take n).lookup k = some (fetch k) := by
    simp [List.lookup]
  refine ⟨by rw [h1]; exact hfail, by rw [h1], ?_, ?_, ?_⟩
  · rw [h1]
    show ((k, fetch k) :: st.take n).lookup k = some none
    rw [h2, hfail]
  · rw [h1]
    show (getOrFetch fetch (n + 1) ((k, fetch k) :: st.take n) k).result
        = none
    rw [getOrFetch, h2]
    exact hfail
  · rw [h1]
    show (getOrFetch fetch (n + 1) ((k, fetch k) :: st.take n) k).calls = 0
    rw [getOrFetch, h2]

/-- Claim C2 (witness of the amended theorem): applied to the always
failing fetch body, an empty cache and a concrete key. -/
theorem failed_fetch_cached_witness :
    (getOrFetch failFetch 128 [] exKey).result = none
    ∧ (getOrFetch failFetch 128 [] exKey).calls = 1
    ∧ (getOrFetch failFetch 128 [] exKey).cache.lookup exKey = some none
    ∧ (getOrFetch failFetch 128
        (getOrFetch failFetch 128 [] exKey).cache exKey).result = none
    ∧ (getOrFetch failFetch 128
        (getOrFetch failFetch 128 [] exKey).cache exKey).calls = 0 :=
  failed_fetch_cached failFetch 128 [] exKey rfl (by decide) rfl

/-- One (model, scenario, ensemble member) combination of the update
cycle's triple loop. -/
structure Combo where
  model : String
  scenario : String
  member : String
deriving DecidableEq, Repr

/-- The message of the ValueError raised at main.py line 213 when a fetch
returns None in the outer loop: it names the model (truncated to its
first ten characters), the scenario and the ensemble member. -/
def errMsg (c : Combo) : String :=
  "Data could not be loaded (" ++ c.model.take 10 ++ " " ++ c.scenario
    ++ " " ++ c.member ++ ")."

/-- The (model, scenario, ensemble member) combinations the triple loop
of update_plot visits, in visiting order (main.py lines 206-208). -/
def comboList (models scenarios members : List String) : List Combo :=
  models.flatMap (fun m => scenarios.flatMap (fun s =>
    members.map (fun em => ⟨m, s, em⟩)))

/-- The per-member ensemble data collected by the inner statistics loop
(main.py lines 331-348): every selected member is fetched and
aggregated; a member whose fetch fails is skipped (print and continue),
so only the members that did fetch contribute. -/
def memberData (env : Combo → Option (List (Int × Rat))) (c : Combo)
    (members : List String) : List (List (Int × Rat)) :=
  members.filterMap (fun em => env ⟨c.model, c.scenario, em⟩)

/-- The update cycle over the combination list (update_plot, main.py
lines 206-213 and 329-407): combinations are processed in order; one
whose fetch fails raises ValueError, aborting the rest of the cycle with
the errMsg error; a successful one runs the inner statistics pass over
all selected members - skipping those whose fetch fails - and produces
ensemble statistics whenever member data remains.  Returns the
statistics produced before any abort together with the surfaced error.
env gives the aggregated series a combination's fetch yields, none for
a failing fetch (lru_cache makes fetches deterministic in one cycle). -/
def runCycle (env : Combo → Option (List (Int × Rat)))
    (members : List String) :
    List Combo → List EnsembleOut × Option String
  | [] => ([], none)
  | c :: rest =>
    match env c with
    | none => ([], some (errMsg c))
    | some _ =>
      let produced := (ensembleStats (memberData env c members)).toList
      let r := runCycle env members rest
      (produced ++ r.1, r.2)

/-- Claim C4 (amended): when some combination's fetch fails, the cycle
does abort - the error of the first failing combination is surfaced,
identifying its model (first ten characters), scenario and ensemble
member, and no later combination is processed - but the statistics
produced by the successful combinations processed before the failure
are kept: each ran the inner statistics pass, which skipped failing
members and produced partial ensemble statistics from the members that
did fetch. -/
theorem cycle_abort_after_partial_stats
    (env : Combo → Option (List (Int × Rat))) (members : List String)
    (l : List Combo) (c : Combo)
    (hfirst : l.find? (fun x => (env x).isNone) = some c) :
    (runCycle env members l).2 = some (errMsg c)
    ∧ (runCycle env members l).1
      = (l.takeWhile (fun x => (env x).isSome)).filterMap
          (fun x => ensembleStats (memberData env x members)) := by
  induction l with
  | nil => simp at hfirst
  | cons a rest ih =>
    cases ha : env a with
    | none =>
      have hpa : (fun x => (env x).isNone) a = true := by simp [ha]
      rw [List.find?_cons_of_pos (p := fun x => (env x).isNone) _ hpa] at hfirst
      obtain rfl : a = c := by simpa using hfirst
      have hna : ¬ ((fun x => (env x).isSome) a = true) := by simp [ha]
      rw [List.takeWhile_cons_of_neg (p := fun x => (env x).isSome) hna]
      simp [runCycle, ha]
    | some v =>
      have hpa : ¬ ((fun x => (env x).isNone) a = true) := by simp [ha]
      rw [List.find?_cons_of_neg (p := fun x => (env x).isNone) _ hpa] at hfirst
      obtain ⟨ih1, ih2⟩ := ih hfirst
      have hsa : (fun x => (env x).isSome) a = true := by simp [ha]
      rw [List.takeWhile_cons_of_pos (p := fun x => (env x).isSome) hsa]
      constructor
      · rw [show runCycle env members (a :: rest)
            = ((ensembleStats (memberData env a members)).toList
                ++ (runCycle env members rest).1,
               (runCycle env members rest).2) by rw [runCycle, ha]]
        exact ih1
      · rw [show runCycle env members (a :: rest)
            = ((ensembleStats (memberData env a members)).toList
                ++ (runCycle env members rest).1,
               (runCycle env members rest).2) by rw [runCycle, ha]]
        cases hstats : ensembleStats (memberData env a members) with
        | none =>
          rw [List.filterMap_cons_none (f := fun x => ensembleStats (memberData env x members)) hstats]
          simpa using ih2
        | some out =>
          rw [List.filterMap_cons_some (f := fun x => ensembleStats (memberData env x members)) hstats]
          simpa using ih2

/-- The environment of the C4 scenario: within one model and scenario,
the fetch of ensemble member r2i1p1f1 fails and every other fetch
succeeds with a one-point aggregated series. -/
def c4env : Combo → Option (List (Int × Rat)) :=
  fun c => if c.member = "r2i1p1f1" then none else some [(2015, 1)]

/-- The two selected ensemble members of the C4 scenario. -/
def c4members : List String := ["r1i1p1f1", "r2i1p1f1"]

/-- The combination list of the C4 scenario: one model, one scenario,
two members. -/
def c4combos : List Combo :=
  comboList ["NorESM2-LM_sea_ice"] ["ssp126"] c4members

/-- The failing combination of the C4 scenario. -/
def c4fail : Combo := ⟨"NorESM2-LM_sea_ice", "ssp126", "r2i1p1f1"⟩

/-- Claim C4 (witness): the amended theorem applied to the concrete C4
scenario, whose first failing combination is c4fail. -/
theorem cycle_abort_after_partial_stats_witness :
    (runCycle c4env c4members c4combos).2 = some (errMsg c4fail)
    ∧ (runCycle c4env c4members c4combos).1
      = (c4combos.takeWhile (fun x => (c4env x).isSome)).filterMap
          (fun x => ensembleStats (memberData c4env x c4members)) :=
  cycle_abort_after_partial_stats c4env c4members c4combos c4fail
    (by decide)

/-- Claim C4 (counterexample): with members r1i1p1f1 and r2i1p1f1
selected and the fetch of r2i1p1f1 failing, the cycle aborts with an
error that identifies the failing combination, but the statistics list
produced before the abort is NOT empty: while processing r1i1p1f1 the
inner statistics pass skipped the failing member and produced a partial
ensemble from the members that did fetch, contrary to the claim that no
partial statistics are produced. -/
theorem partial_stats_before_abort_cex :
    (runCycle c4env c4members c4combos).2
      = some "Data could not be loaded (NorESM2-LM ssp126 r2i1p1f1)."
    ∧ (runCycle c4env c4members c4combos).1 ≠ [] := by
  decide

/-- A fetched data array as the cache holds it: timestamps (year,
month), values, named coordinate arrays and attributes. -/
structure DataArray where
  times : List (Int × Nat)
  values : List Rat
  coords : List (String × List Int)
  attrs : List (String × String)
deriving DecidableEq, Repr

/-- The assignment da.coords[name] = vals: the named coordinate is set,
replacing any previous entry of that name. -/
def setCoord (da : DataArray) (name : String) (vals : List Int) :
    DataArray :=
  { da with coords := (name, vals) :: da.coords.filter (fun e => e.1 != name) }

/-- The coordinate assignments of main.py lines 250-251 (and again
343-344): da.coords['year'] = da.time.dt.year and da.coords['month'] =
da.time.dt.month, performed on the very object the fetch cache stores
(the osisaf baseline is copied at line 244 before the same treatment;
the model data array is not copied). -/
def addYearMonthCoords (da : DataArray) : DataArray :=
  setCoord (setCoord da "year" (da.times.map Prod.fst)) "month"
    (da.times.map (fun t => (t.2 : Int)))

/-- The cache contents after one update touches the entry of key k:
because the assignments mutate the stored object in place, the cached
entry becomes the coordinate-augmented array. -/
def cacheAfterUpdate (cache : SKey → Option DataArray) (k : SKey) :
    SKey → Option DataArray :=
  fun k2 => if k2 = k then (cache k).map addYearMonthCoords else cache k2

theorem lookup_filter_ne (t : List (String × List Int)) (n m : String)
    (h : n ≠ m) :
    (t.filter (fun e => e.1 != m)).lookup n = t.lookup n := by
  induction t with
  | nil => rfl
  | cons a t ih =>
    obtain ⟨a1, a2⟩ := a
    by_cases ha : a1 = m
    · subst ha
      have hne : (n == a1) = false := by simp [h]
      simp [List.filter_cons, List.lookup, hne, ih]
    · by_cases hna : n = a1
      · subst hna
        simp [List.filter_cons, List.lookup, ha]
      · have hne : (n == a1) = false := by simp [hna]
        simp [List.filter_cons, List.lookup, hne, ih, ha]

/-- The concrete cached data array of the C8 scenario: as fetched it
carries no coordinate entries. -/
def c8da : DataArray :=
  ⟨[(2015, 12), (2016, 1)], [1, 2], [],
   [("long_name", "Total area of sea ice"), ("units", "1e6 km2")]⟩

/-- A concrete cache holding c8da under exKey. -/
def c8cache : SKey → Option DataArray :=
  fun k2 => if k2 = exKey then some c8da else none

/-- Claim C8 (counterexample): the cached data array of exKey has no
coordinates as fetched; after one update aggregates it, the cached
entry carries year and month coordinate arrays, so the cached series
was changed in place, contrary to the claim that it stays unmutated. -/
theorem cached_series_mutated_cex :
    addYearMonthCoords c8da ≠ c8da
    ∧ cacheAfterUpdate c8cache exKey exKey ≠ c8cache exKey := by
  decide

/-- Claim C8 (amended): the aggregation leaves the cached series'
timestamps, values and attributes unchanged, but it does mutate the
cached object: it writes the year and month coordinate arrays onto it
in place (coordinates of any other name are untouched), so after one
update the cached entry differs from the series as fetched exactly by
these two coordinates. -/
theorem aggregation_mutates_only_coords (da : DataArray) (n : String)
    (hy : n ≠ "year") (hm : n ≠ "month") :
    (addYearMonthCoords da).times = da.times
    ∧ (addYearMonthCoords da).values = da.values
    ∧ (addYearMonthCoords da).attrs = da.attrs
    ∧ (addYearMonthCoords da).coords.lookup "year"
        = some (da.times.map Prod.fst)
    ∧ (addYearMonthCoords da).coords.lookup "month"
        = some (da.times.map (fun t => (t.2 : Int)))
    ∧ (addYearMonthCoords da).coords.lookup n = da.coords.lookup n := by
  refine ⟨rfl, rfl, rfl, ?_, ?_, ?_⟩
  · show List.lookup "year"
        (("month", da.times.map (fun t => (t.2 : Int))) ::
          (("year", da.times.map Prod.fst) ::
            da.coords.filter (fun e => e.1 != "year")).filter
              (fun e => e.1 != "month")) = _
    rw [List.lookup]
    simp only [show (("year" : String) == "month") = false from rfl]
    rw [lookup_filter_ne _ "year" "month" (by decide)]
    rw [List.lookup]
    simp
  · show List.lookup "month"
        (("month", da.times.map (fun t => (t.2 : Int))) :: _) = _
    rw [List.lookup]
    simp
  · show List.lookup n
        (("month", da.times.map (fun t => (t.2 : Int))) ::
          (("year", da.times.map Prod.fst) ::
            da.coords.filter (fun e => e.1 != "year")).filter
              (fun e => e.1 != "month")) = _
    rw [List.lookup]
    simp only [show (n == "month") = false from by simp [hm]]
    rw [lookup_filter_ne _ n "month" hm]
    rw [List.lookup]
    simp only [show (n == "year") = false from by simp [hy]]
    rw [lookup_filter_ne _ n "year" hy]

/-- Claim C8 (witness of the amended theorem): applied to the concrete
cached array c8da and the untouched coordinate name time. -/
theorem aggregation_mutates_only_coords_witness :
    (addYearMonthCoords c8da).times = c8da.times
    ∧ (addYearMonthCoords c8da).values = c8da.values
    ∧ (addYearMonthCoords c8da).attrs = c8da.attrs
    ∧ (addYearMonthCoords c8da).coords.lookup "year"
        = some (c8da.times.map Prod.fst)
    ∧ (addYearMonthCoords c8da).coords.lookup "month"
        = some (c8da.times.map (fun t => (t.2 : Int)))
    ∧ (addYearMonthCoords c8da).coords.lookup "time"
        = c8da.coords.lookup "time" :=
  aggregation_mutates_only_coords c8da "time" (by decide) (by decide)

/-- A network read the dashboard performs: the baseline load of the
constructor (main.py line 123) or one model-data open of update_plot
(lines 210 and 335). -/
inductive NetRead where
  | loadBaseline : NetRead
  | openModelData (varType model scenario member : String) : NetRead
deriving DecidableEq, Repr

/-- One user selection: the resolved variable name and the selected
models, scenarios and ensemble members. -/
structure Selection where
  varType : String
  models : List String
  scenarios : List String
  members : List String

/-- The network reads one run of update_plot performs: for every
(model, scenario, member) combination of the triple loop, the outer
fetch (line 210) plus the inner statistics fetch of every selected
member (line 335).  No baseline read occurs anywhere in update_plot:
line 244 copies the stored constant_dataset instead of reopening it. -/
def updateReads (s : Selection) : List NetRead :=
  (comboList s.models s.scenarios s.members).flatMap
    (fun c => NetRead.openModelData s.varType c.model c.scenario c.member ::
      s.members.map (fun em =>
        NetRead.openModelData s.varType c.model c.scenario em))

/-- The network reads of a whole process: the constructor loads the
baseline once (main.py line 123) and runs update_plot once with the
default selection (line 155); every later parameter change runs
update_plot again with its selection. -/
def processReads (first : Selection) (later : List Selection) :
    List NetRead :=
  NetRead.loadBaseline ::
    (updateReads first ++ (later.map updateReads).flatten)

/-- Claim C9: the baseline dataset is read exactly once per process, by
the constructor at startup; no update cycle - whatever selections the
user makes and however many parameter changes occur - ever performs a
baseline read, so every per-update seasonal aggregation of the baseline
works on the series loaded at startup. -/
theorem baseline_loaded_once (first : Selection) (later : List Selection)
    (s : Selection) :
    (processReads first later).count NetRead.loadBaseline = 1
    ∧ NetRead.loadBaseline ∉ updateReads s := by
  have hnot : ∀ t : Selection, NetRead.loadBaseline ∉ updateReads t := by
    intro t
    simp [updateReads]
  have h0 : (updateReads first
      ++ (later.map updateReads).flatten).count NetRead.loadBaseline = 0 := by
    rw [List.count_eq_zero]
    intro hmem
    rcases List.mem_append.mp hmem with h | h
    · exact hnot first h
    · obtain ⟨l, hl, hin⟩ := List.mem_flatten.mp h
      obtain ⟨t, -, rfl⟩ := List.mem_map.mp hl
      exact hnot t hin
  exact ⟨by rw [processReads, List.count_cons_self, h0], hnot s⟩

end SeaIce
